import Mathlib

/-!
Verification of `src/minizinc/CLI/driver.py` (minizinc-python): a shallow
embedding of the command-line driver module and proofs of its specified
properties.

Modelling conventions:
* Python byte strings (process stdout/stderr) are modelled by their character
  content as Lean `String`s; `bytes.decode()` is therefore the identity on the
  model.
* The process-execution primitives (`subprocess.run`,
  `asyncio.create_subprocess_exec`) are external collaborators; they are
  modelled as an oracle function from the command list and the optional
  timeout (in seconds) to a spawn result.
* `warnings.warn` is modelled by a Boolean "warned" component in the result of
  `to_python_type`.
* Exceptions are modelled with `Except` / explicit result inductives.
-/

/-! ## Python `typing` values produced by `to_python_type` -/

/-- The Python `Type` values that `to_python_type` (driver.py lines 20-61) can
produce: `bool`, `float`, `int`, `Union[Set[int], range]`, `Set[t]`, and
`List[t]`. -/
inductive PyType where
  | bool
  | float
  | int
  /-- `Union[Set[int], range]` (line 52). -/
  | setIntOrRange
  /-- `Set[pytype]` (line 54). -/
  | setOf (t : PyType)
  /-- `List[pytype]` (line 59). -/
  | listOf (t : PyType)
deriving DecidableEq

/-- The input dictionary of `to_python_type`, restricted to the keys the
function reads: `mzn_type["type"]` (required), `mzn_type.get("set", False)`,
`mzn_type.get("dim", 0)`. -/
structure MznType where
  type : String
  set : Bool := false
  dim : Int := 0

/-- The `while dim >= 1: pytype = List[pytype]; dim -= 1` loop of driver.py
lines 57-60: wraps `List[·]` around the type `n` times (a Python `int` value
`dim ≤ 0` never enters the loop, hence the `Int.toNat` at the call site). -/
def wrapList : Nat → PyType → PyType
  | 0, t => t
  | n + 1, t => wrapList n (PyType.listOf t)

/-- driver.py lines 20-61, `to_python_type`.  Returns the produced Python type
together with a flag recording whether `warnings.warn` was called (the
unknown-base-type branch, lines 43-48).  The function is total: unknown base
types never raise. -/
def to_python_type (mzn_type : MznType) : PyType × Bool :=
  let basetype := mzn_type.type
  let base : PyType × Bool :=
    if basetype = "bool" then (PyType.bool, false)
    else if basetype = "float" then (PyType.float, false)
    else if basetype = "int" then (PyType.int, false)
    else (PyType.int, true)
  let pytype := base.1
  let pytype :=
    if mzn_type.set then
      if pytype = PyType.int then PyType.setIntOrRange
      else PyType.setOf pytype
    else pytype
  (wrapList mzn_type.dim.toNat pytype, base.2)

/-! ## Driver construction and process invocation -/

/-- `datetime.timedelta`, abstracted to its total number of seconds. -/
structure Timedelta where
  totalSeconds : ℚ

/-- The fields of a `subprocess.CompletedProcess` that `run` uses. -/
structure ProcessOutput where
  returncode : Int
  stdout : String
  stderr : String

/-- Result of invoking `subprocess.run`: it either returns a completed process
or raises `subprocess.TimeoutExpired`. -/
inductive SpawnResult where
  | completed (output : ProcessOutput)
  | timedOut

/-- The oracle modelling the external process-execution primitive: given the
full command list and the timeout (in seconds, `none` = wait indefinitely), it
reports what the subprocess did. -/
abbrev Exec := List String → Option ℚ → SpawnResult

/-- The exceptions `run` can raise: `subprocess.TimeoutExpired` propagated
unchanged (line 109/128 via `subprocess.run`), or `parse_error(output.stderr)`
(line 136) — the external error parser applied to the captured stderr bytes,
modelled by a constructor carrying those bytes. -/
inductive RunError where
  | timeoutExpired
  | parsedError (stderr : String)
deriving DecidableEq

/-- driver.py lines 98-100: `timeout_flt = None; if timeout is not None:
timeout_flt = timeout.total_seconds()`. -/
def timeoutFlt : Option Timedelta → Option ℚ
  | none => none
  | some t => some t.totalSeconds

/-- The `CLIDriver` object: its only state is the immutable executable path
(driver.py line 77). -/
structure CLIDriver where
  executable : String

/-- Python `assert` failure in `CLIDriver.__init__` (driver.py line 81). -/
inductive InitError where
  | assertionError
deriving DecidableEq

namespace CLIDriver

/-- driver.py lines 79-83, `CLIDriver.__init__`: stores the executable path and
asserts `self._executable.exists()`.  The filesystem is an oracle
`exists_on_fs`.  No other validation is performed. -/
def init (exists_on_fs : String → Bool) (executable : String) :
    Except InitError CLIDriver :=
  let d : CLIDriver := { executable := executable }
  if exists_on_fs d.executable then Except.ok d
  else Except.error InitError.assertionError

/-- The command list built by `CLIDriver.run` (driver.py lines 101-104 when no
solver is given, lines 117-123 when a solver configuration token `conf` has
been acquired).  `str` is Python `str(arg)` for the element type of `args`. -/
def runCmd {α : Type} (d : CLIDriver) (str : α → String) (args : List α) :
    Option String → List String
  | none => [d.executable, "--allow-multiple-assignments"] ++ args.map str
  | some conf =>
    [d.executable, "--solver", conf, "--allow-multiple-assignments"] ++ args.map str

/-- The argument vector passed to `asyncio.create_subprocess_exec` by
`CLIDriver.create_process` (driver.py lines 147-154 without a solver, lines
162-171 with one): the program followed by its arguments. -/
def createProcessCmd {α : Type} (d : CLIDriver) (str : α → String) (args : List α) :
    Option String → List String
  | none => [d.executable, "--allow-multiple-assignments"] ++ args.map str
  | some conf =>
    [d.executable, "--solver", conf, "--allow-multiple-assignments"] ++ args.map str

/-- The command shape stated by the spec (section 6): `<executable> [--solver
<configToken>] --allow-multiple-assignments <args...>`.  Written from the
spec words, to be compared with `runCmd` and `createProcessCmd`. -/
def claimedCmdShape {α : Type} (d : CLIDriver) (str : α → String) (args : List α)
    (conf : Option String) : List String :=
  [d.executable] ++
    (match conf with
     | none => []
     | some c => ["--solver", c]) ++
    ["--allow-multiple-assignments"] ++ args.map str

/-- driver.py lines 91-137, `CLIDriver.run`.  `conf` is the configuration
token yielded by `solver.configuration()` when a solver is supplied (`none`
when `solver is None`).  The subprocess is the oracle `ex`; stdout and stderr
are captured fully (they are fields of the returned `ProcessOutput`). -/
def run {α : Type} (d : CLIDriver) (ex : Exec) (str : α → String) (args : List α)
    (conf : Option String) (timeout : Option Timedelta) :
    Except RunError ProcessOutput :=
  let timeout_flt := timeoutFlt timeout
  let spawned :=
    match conf with
    | none =>
      ex ([d.executable, "--allow-multiple-assignments"] ++ args.map str) timeout_flt
    | some c =>
      ex ([d.executable, "--solver", c, "--allow-multiple-assignments"] ++ args.map str)
        timeout_flt
  match spawned with
  | SpawnResult.timedOut => Except.error RunError.timeoutExpired
  | SpawnResult.completed output =>
    if output.returncode ≠ 0 then Except.error (RunError.parsedError output.stderr)
    else Except.ok output

/-- driver.py lines 174-176, the `minizinc_version` property:
`self.run(["--version"]).stdout.decode()` — a synchronous `run` with the
single argument `"--version"`, no solver and no timeout; `decode` is the
identity on the byte-string model. -/
def minizinc_version (d : CLIDriver) (ex : Exec) : Except RunError String :=
  (d.run ex (fun s : String => s) ["--version"] none none).map
    (fun output => output.stdout)

end CLIDriver

/-! ## The version regular expression

`re.search(rb"version (\d+)\.(\d+)\.(\d+)", output.stdout)` (driver.py line
180): search for the leftmost occurrence of the literal `version ` followed by
three groups of one-or-more digits separated by literal dots.  Since a digit
run is never followed by a digit after maximal munch, the greedy `\d+` needs
no backtracking here: taking the maximal digit run at each group is exactly
Python\x27s semantics for this pattern. -/

/-- Match a literal character list at the head of the input, returning the
rest of the input on success. -/
def dropLit : List Char → List Char → Option (List Char)
  | [], s => some s
  | _ :: _, [] => none
  | l :: ls, c :: cs => if c = l then dropLit ls cs else none

/-- Split off the maximal leading run of decimal digits (`\d+` is greedy). -/
def takeDigits : List Char → List Char × List Char
  | [] => ([], [])
  | c :: cs =>
    if c.isDigit then
      let p := takeDigits cs
      (c :: p.1, p.2)
    else ([], c :: cs)

/-- The integer denoted by a list of decimal digits (Python `int(group)`). -/
def digitsToNat (ds : List Char) : Nat :=
  ds.foldl (fun n c => n * 10 + (c.toNat - 48)) 0

/-- A parsed `(major, minor, patch)` version tuple. -/
abbrev Version := Nat × Nat × Nat

/-- Try to match `version (\d+)\.(\d+)\.(\d+)` anchored at the head of the
input; on success return the three groups converted to integers
(`tuple([int(i) for i in match.groups()])`, driver.py line 181). -/
def matchVersionAt (s : List Char) : Option Version :=
  match dropLit "version ".data s with
  | none => none
  | some s1 =>
    let p1 := takeDigits s1
    if p1.1 = [] then none
    else
      match p1.2 with
      | '.' :: r2 =>
        let p2 := takeDigits r2
        if p2.1 = [] then none
        else
          match p2.2 with
          | '.' :: r4 =>
            let p3 := takeDigits r4
            if p3.1 = [] then none
            else some (digitsToNat p1.1, digitsToNat p2.1, digitsToNat p3.1)
          | _ => none
      | _ => none

/-- `re.search`: try the anchored match at every position from the left and
return the first success, `none` when no position matches. -/
def searchVersion : List Char → Option Version
  | [] => matchVersionAt []
  | c :: rest =>
    match matchVersionAt (c :: rest) with
    | some v => some v
    | none => searchVersion rest

/-- Python tuple comparison `found < required` on 3-tuples: strict
lexicographic order. -/
def verLt : Version → Version → Bool
  | (a1, a2, a3), (b1, b2, b3) =>
    decide (a1 < b1) ||
      (decide (a1 = b1) &&
        (decide (a2 < b2) || (decide (a2 = b2) && decide (a3 < b3))))

/-- Python `str` of a 3-tuple of ints, e.g. `(2, 6, 0)`, as interpolated into
the `ConfigurationError` message. -/
def pyTupleStr : Version → String
  | (a, b, c) =>
    "(" ++ toString a ++ ", " ++ toString b ++ ", " ++ toString c ++ ")"

/-- The `ConfigurationError` message built on driver.py lines 183-187:
`f"The MiniZinc driver found at \x27{self._executable}\x27 has version
{found}. The minimal required version is {required_version}."`. -/
def versionErrorMsg (executable : String) (found required : Version) : String :=
  "The MiniZinc driver found at \x27" ++ executable ++ "\x27 has version " ++
    pyTupleStr found ++ ". The minimal required version is " ++
    pyTupleStr required ++ "."

/-- `needle` occurs as a contiguous substring of `hay`. -/
def containsStr (needle hay : String) : Prop :=
  ∃ l r : List Char, hay.data = l ++ needle.data ++ r

/-- Outcome of `CLIDriver.check_version` (driver.py lines 178-187): normal
return, `ConfigurationError` raised, the `AttributeError` raised by
`match.groups()` when `re.search` returned `None` (line 181), or an exception
propagated out of the inner `self.run` call. -/
inductive CheckVersionResult where
  | ok
  | configurationError (msg : String)
  | attributeError
  | runFailure (e : RunError)
deriving DecidableEq

namespace CLIDriver

/-- driver.py lines 178-187, `CLIDriver.check_version`.  `required_version`
stands for the process-wide constant `minizinc.driver.required_version`, which
lives outside this module and is therefore a parameter. -/
def check_version (d : CLIDriver) (ex : Exec) (required_version : Version) :
    CheckVersionResult :=
  match d.run ex (fun s : String => s) ["--version"] none none with
  | Except.error e => CheckVersionResult.runFailure e
  | Except.ok output =>
    match searchVersion output.stdout.data with
    | none => CheckVersionResult.attributeError
    | some found =>
      if verLt found required_version then
        CheckVersionResult.configurationError
          (versionErrorMsg d.executable found required_version)
      else CheckVersionResult.ok

end CLIDriver

/-! ## Event traces of the solver-configuration scope

To settle claims about when the scoped solver configuration is acquired and
released relative to command construction, spawning and process exit, the
solver branches of `run` and `create_process` are given as event traces,
transcribing the `with solver.configuration() as conf:` blocks (driver.py
lines 117-134 and 156-171, with `with`-statement semantics: `__exit__` runs on
every way of leaving the block, including an exception). -/

/-- Observable events of one invocation with a solver. -/
inductive Ev where
  /-- `solver.configuration().__enter__()` yields the token. -/
  | acquireConf
  /-- The `cmd` list (resp. argument vector) is built from the token. -/
  | buildCmd
  /-- `subprocess.run` / `await asyncio.create_subprocess_exec` is entered. -/
  | spawnCall
  /-- The subprocess terminates. -/
  | subprocExited
  /-- `solver.configuration().__exit__` releases the token. -/
  | releaseConf
  /-- An exception propagates out of the method. -/
  | raised
  /-- The method returns normally. -/
  | returned
deriving DecidableEq

/-- What the subprocess did during a synchronous `run`. -/
inductive SyncOutcome where
  /-- `subprocess.run` returned a completed process with this exit code. -/
  | completed (returncode : Int)
  /-- `subprocess.run` killed the child and raised `TimeoutExpired`. -/
  | timedOut
  /-- spawning itself failed (e.g. `OSError` from `subprocess.run`). -/
  | spawnFailed

/-- Trace of `CLIDriver.run` when a solver is given (driver.py lines 116-137):
the token is acquired, the command built and `subprocess.run` called inside
the `with` block — `subprocess.run` waits for the subprocess to terminate —
and the token is released when the block is left, on every path.  The
`returncode != 0` check (line 135) happens after the block. -/
def runSolverTrace : SyncOutcome → List Ev
  | SyncOutcome.completed returncode =>
    [Ev.acquireConf, Ev.buildCmd, Ev.spawnCall, Ev.subprocExited, Ev.releaseConf] ++
      (if returncode ≠ 0 then [Ev.raised] else [Ev.returned])
  | SyncOutcome.timedOut =>
    [Ev.acquireConf, Ev.buildCmd, Ev.spawnCall, Ev.subprocExited, Ev.releaseConf,
      Ev.raised]
  | SyncOutcome.spawnFailed =>
    [Ev.acquireConf, Ev.buildCmd, Ev.spawnCall, Ev.releaseConf, Ev.raised]

/-- What `asyncio.create_subprocess_exec` did in `create_process`. -/
inductive AsyncOutcome where
  /-- the subprocess was spawned; it is still running when the method
  returns its handle. -/
  | spawned
  /-- spawning itself failed. -/
  | spawnFailed

/-- Trace of `CLIDriver.create_process` when a solver is given (driver.py
lines 155-172): the `with` block encloses only the spawn; the token is
released as soon as `create_subprocess_exec` returns (or raises), and the
subprocess — if it was spawned — has not exited yet. -/
def createProcessSolverTrace : AsyncOutcome → List Ev
  | AsyncOutcome.spawned =>
    [Ev.acquireConf, Ev.buildCmd, Ev.spawnCall, Ev.releaseConf, Ev.returned]
  | AsyncOutcome.spawnFailed =>
    [Ev.acquireConf, Ev.buildCmd, Ev.spawnCall, Ev.releaseConf, Ev.raised]

/-- Does `releaseConf` occur immediately after `buildCmd` somewhere in the
trace? -/
def releaseImmediatelyAfterBuild : List Ev → Bool
  | Ev.buildCmd :: Ev.releaseConf :: _ => true
  | _ :: rest => releaseImmediatelyAfterBuild rest
  | [] => false

/-- Does `releaseConf` occur strictly before any `subprocExited` (vacuously
true when the subprocess never exits within the trace)? -/
def releasedBeforeExit : List Ev → Bool
  | [] => true
  | Ev.subprocExited :: _ => false
  | Ev.releaseConf :: _ => true
  | _ :: rest => releasedBeforeExit rest

/-- Number of occurrences of an event in a trace. -/
def countEv (e : Ev) : List Ev → Nat
  | [] => 0
  | x :: rest => (if x = e then 1 else 0) + countEv e rest

/-- Does the event occur in the trace? -/
def hasEv (e : Ev) : List Ev → Bool
  | [] => false
  | x :: rest => x = e || hasEv e rest

/-- Does `spawnCall` occur strictly before the first `releaseConf`? -/
def spawnPrecedesRelease : List Ev → Bool
  | [] => false
  | Ev.releaseConf :: _ => false
  | Ev.spawnCall :: rest => hasEv Ev.releaseConf rest
  | _ :: rest => spawnPrecedesRelease rest

/-! ## Helper lemmas -/

/-- `run` invokes the process primitive on exactly `runCmd` together with the
converted timeout, and post-processes the spawn result. -/
theorem run_spawn_eq {α : Type} (d : CLIDriver) (ex : Exec) (str : α → String)
    (args : List α) (conf : Option String) (timeout : Option Timedelta) :
    d.run ex str args conf timeout =
      match ex (d.runCmd str args conf) (timeoutFlt timeout) with
      | SpawnResult.timedOut => Except.error RunError.timeoutExpired
      | SpawnResult.completed output =>
        if output.returncode ≠ 0 then Except.error (RunError.parsedError output.stderr)
        else Except.ok output := by
  cases conf <;> rfl

/-- The `--version` invocation of `run` made by `minizinc_version` and
`check_version` succeeds when the process completes with exit code 0. -/
theorem run_version_ok (d : CLIDriver) (ex : Exec) (output : ProcessOutput)
    (hspawn : ex [d.executable, "--allow-multiple-assignments", "--version"] none =
      SpawnResult.completed output)
    (hrc : output.returncode = 0) :
    d.run ex (fun s : String => s) ["--version"] none none = Except.ok output := by
  rw [run_spawn_eq]
  have hcmd : d.runCmd (fun s : String => s) ["--version"] none =
      [d.executable, "--allow-multiple-assignments", "--version"] := rfl
  rw [hcmd]
  have ht : timeoutFlt none = (none : Option ℚ) := rfl
  rw [ht, hspawn]
  simp [hrc]

/-- The character data of the `ConfigurationError` message, decomposed at the
interpolated pieces. -/
theorem versionErrorMsg_data (executable : String) (found required : Version) :
    (versionErrorMsg executable found required).data =
      "The MiniZinc driver found at \x27".data ++ executable.data ++
        "\x27 has version ".data ++ (pyTupleStr found).data ++
        ". The minimal required version is ".data ++ (pyTupleStr required).data ++
        ".".data := by
  simp [versionErrorMsg, String.data_append, List.append_assoc]

/-- `check_version` reduces to the version comparison once the subprocess
completed successfully and the regex found a version tuple. -/
theorem check_version_of_found (d : CLIDriver) (ex : Exec) (required found : Version)
    (output : ProcessOutput)
    (hspawn : ex [d.executable, "--allow-multiple-assignments", "--version"] none =
      SpawnResult.completed output)
    (hrc : output.returncode = 0)
    (hfound : searchVersion output.stdout.data = some found) :
    d.check_version ex required =
      if verLt found required then
        CheckVersionResult.configurationError (versionErrorMsg d.executable found required)
      else CheckVersionResult.ok := by
  unfold CLIDriver.check_version
  rw [run_version_ok d ex output hspawn hrc]
  simp only [hfound]

/-- `check_version` hits the `match.groups()`-on-`None` failure exactly on the
no-match branch of `re.search`. -/
theorem check_version_of_none (d : CLIDriver) (ex : Exec) (required : Version)
    (output : ProcessOutput)
    (hspawn : ex [d.executable, "--allow-multiple-assignments", "--version"] none =
      SpawnResult.completed output)
    (hrc : output.returncode = 0)
    (hnone : searchVersion output.stdout.data = none) :
    d.check_version ex required = CheckVersionResult.attributeError := by
  unfold CLIDriver.check_version
  rw [run_version_ok d ex output hspawn hrc]
  simp only [hnone]

/-! ## Claim theorems -/

/-- C1: for every argument list, the command assembled by `run` and by
`create_process` begins with the executable path followed by
`--allow-multiple-assignments` and then the stringified arguments in order
when no solver is given; when a solver is given, `--solver` and the
configuration token are inserted immediately after the executable path and
before `--allow-multiple-assignments` — both functions produce exactly the
spec's command shape, for every choice of solver. -/
theorem c1_assembled_command_order {α : Type} (d : CLIDriver) (str : α → String)
    (args : List α) (conf : Option String) :
    d.runCmd str args conf = d.claimedCmdShape str args conf ∧
    d.createProcessCmd str args conf = d.claimedCmdShape str args conf := by
  cases conf <;> exact ⟨rfl, rfl⟩

/-- C8: constructing the driver succeeds (storing exactly the given path) if
and only if the path exists on the filesystem at construction time, and
otherwise fails with the assertion failure; no other validation is
performed. -/
theorem c8_init_iff_path_exists (exists_on_fs : String → Bool) (executable : String) :
    (CLIDriver.init exists_on_fs executable = Except.ok { executable := executable } ↔
      exists_on_fs executable = true) ∧
    (CLIDriver.init exists_on_fs executable = Except.error InitError.assertionError ↔
      exists_on_fs executable = false) := by
  unfold CLIDriver.init
  by_cases h : exists_on_fs executable = true <;> simp [h]

/-- C3: `to_python_type` maps `{"type": "int"}` to `int`, `{"type": "int",
"set": true}` to `Union[Set[int], range]`, `{"type": "bool", "dim": 2}` to
`List[List[bool]]`; and for every base type other than `"bool"`, `"float"`
and `"int"` it defaults the base type to `int` and emits a warning — the
function is total, so unknown base types never raise. -/
theorem c3_to_python_type_mapping (t : String) (s : Bool) (dim : Int)
    (h : ¬(t = "bool" ∨ t = "float" ∨ t = "int")) :
    to_python_type { type := "int" } = (PyType.int, false) ∧
    to_python_type { type := "int", set := true } = (PyType.setIntOrRange, false) ∧
    to_python_type { type := "bool", dim := 2 } =
      (PyType.listOf (PyType.listOf PyType.bool), false) ∧
    to_python_type { type := t, set := s, dim := dim } =
      (wrapList dim.toNat (if s then PyType.setIntOrRange else PyType.int), true) := by
  push_neg at h
  refine ⟨by decide, by decide, by decide, ?_⟩
  unfold to_python_type
  simp only [h.1, h.2.1, h.2.2, if_false]
  cases s <;> simp

/-- C3 witness: the theorem at the concrete unknown base type `"enum"` with
`set = true` and `dim = 2`. -/
theorem c3_to_python_type_mapping_witness :
    to_python_type { type := "enum", set := true, dim := 2 } =
      (PyType.listOf (PyType.listOf PyType.setIntOrRange), true) :=
  (c3_to_python_type_mapping "enum" true 2 (by decide)).2.2.2

/-- C10: for a dict whose base type is unknown and whose `set` key is true,
`to_python_type` produces the same `Union[Set[int], range]` type as for
`{"type": "int", "set": true}`: the unknown base is defaulted to `int` before
the set wrapping is applied. -/
theorem c10_unknown_set_same_as_int_set (t : String)
    (h : ¬(t = "bool" ∨ t = "float" ∨ t = "int")) :
    (to_python_type { type := t, set := true }).1 =
      (to_python_type { type := "int", set := true }).1 ∧
    (to_python_type { type := t, set := true }).1 = PyType.setIntOrRange := by
  push_neg at h
  unfold to_python_type
  simp [h.1, h.2.1, h.2.2, wrapList]

/-- C10 witness: the theorem at the concrete unknown base type `"enum"`. -/
theorem c10_unknown_set_same_as_int_set_witness :
    (to_python_type { type := "enum", set := true }).1 =
      (to_python_type { type := "int", set := true }).1 ∧
    (to_python_type { type := "enum", set := true }).1 = PyType.setIntOrRange :=
  c10_unknown_set_same_as_int_set "enum" (by decide)

/-- C4: when the subprocess completes with a non-zero exit code, `run` raises
the error produced by the external error parser applied to the captured
stderr bytes and never returns a process result; with exit code zero it
returns the completed process result with its captured stdout and stderr. -/
theorem c4_run_nonzero_exit {α : Type} (d : CLIDriver) (ex : Exec) (str : α → String)
    (args : List α) (conf : Option String) (timeout : Option Timedelta)
    (output : ProcessOutput)
    (hspawn : ex (d.runCmd str args conf) (timeoutFlt timeout) =
      SpawnResult.completed output) :
    (output.returncode ≠ 0 →
      d.run ex str args conf timeout = Except.error (RunError.parsedError output.stderr)) ∧
    (output.returncode = 0 → d.run ex str args conf timeout = Except.ok output) := by
  rw [run_spawn_eq d ex str args conf timeout, hspawn]
  constructor
  · intro hne
    simp [hne]
  · intro heq
    simp [heq]

/-- C4 witness: the theorem at a concrete failing process (exit code 1,
stderr `"oops"`) and a concrete succeeding one (exit code 0). -/
theorem c4_run_nonzero_exit_witness :
    CLIDriver.run ⟨"mz"⟩ (fun _ _ => SpawnResult.completed ⟨1, "", "oops"⟩)
        (fun s : String => s) [] none none =
      Except.error (RunError.parsedError "oops") ∧
    CLIDriver.run ⟨"mz"⟩ (fun _ _ => SpawnResult.completed ⟨0, "out", "err"⟩)
        (fun s : String => s) [] none none =
      Except.ok ⟨0, "out", "err"⟩ :=
  ⟨(c4_run_nonzero_exit ⟨"mz"⟩ (fun _ _ => SpawnResult.completed ⟨1, "", "oops"⟩)
      (fun s : String => s) [] none none ⟨1, "", "oops"⟩ rfl).1 (by decide),
   (c4_run_nonzero_exit ⟨"mz"⟩ (fun _ _ => SpawnResult.completed ⟨0, "out", "err"⟩)
      (fun s : String => s) [] none none ⟨0, "out", "err"⟩ rfl).2 rfl⟩

/-- C7: when the subprocess exceeds the timeout, the process primitive's
native timeout signal makes `run` raise `TimeoutExpired` unchanged and return
no result; and when no timeout is given, the primitive is invoked with
timeout `None`, i.e. told to wait indefinitely. -/
theorem c7_run_timeout {α : Type} (d : CLIDriver) (ex : Exec) (str : α → String)
    (args : List α) (conf : Option String) (timeout : Option Timedelta)
    (hspawn : ex (d.runCmd str args conf) (timeoutFlt timeout) = SpawnResult.timedOut) :
    d.run ex str args conf timeout = Except.error RunError.timeoutExpired ∧
    timeoutFlt none = (none : Option ℚ) := by
  rw [run_spawn_eq d ex str args conf timeout, hspawn]
  exact ⟨rfl, rfl⟩

/-- C7 witness: the theorem at a concrete primitive that times out. -/
theorem c7_run_timeout_witness :
    CLIDriver.run ⟨"mz"⟩ (fun _ _ => SpawnResult.timedOut) (fun s : String => s)
        ["model.mzn"] none (some ⟨5⟩) =
      Except.error RunError.timeoutExpired ∧
    timeoutFlt none = (none : Option ℚ) :=
  c7_run_timeout ⟨"mz"⟩ (fun _ _ => SpawnResult.timedOut) (fun s : String => s)
    ["model.mzn"] none (some ⟨5⟩) rfl

/-- C9: the `minizinc_version` property invokes the executable synchronously
with the single argument `--version` — the command contains no solver tokens
and the primitive is given no timeout — and returns the decoded stdout of
that invocation. -/
theorem c9_minizinc_version (d : CLIDriver) (ex : Exec) (output : ProcessOutput)
    (hspawn : ex [d.executable, "--allow-multiple-assignments", "--version"] none =
      SpawnResult.completed output)
    (hrc : output.returncode = 0) :
    d.minizinc_version ex = Except.ok output.stdout := by
  unfold CLIDriver.minizinc_version
  rw [run_version_ok d ex output hspawn hrc]
  rfl

/-- C9 witness: the theorem at a concrete primitive reporting a version
banner on stdout. -/
theorem c9_minizinc_version_witness :
    CLIDriver.minizinc_version ⟨"mz"⟩
        (fun _ _ => SpawnResult.completed ⟨0, "minizinc version 2.6.4", ""⟩) =
      Except.ok "minizinc version 2.6.4" :=
  c9_minizinc_version ⟨"mz"⟩
    (fun _ _ => SpawnResult.completed ⟨0, "minizinc version 2.6.4", ""⟩)
    ⟨0, "minizinc version 2.6.4", ""⟩ rfl rfl

/-- C2: when the `--version` stdout yields a version tuple, `check_version`
raises `ConfigurationError` exactly when the found tuple is lexicographically
less than the required-version constant, and the error message contains the
found tuple, the required tuple and the executable path. -/
theorem c2_check_version_comparison (d : CLIDriver) (ex : Exec)
    (required found : Version) (output : ProcessOutput)
    (hspawn : ex [d.executable, "--allow-multiple-assignments", "--version"] none =
      SpawnResult.completed output)
    (hrc : output.returncode = 0)
    (hfound : searchVersion output.stdout.data = some found) :
    (verLt found required = true →
      d.check_version ex required =
        CheckVersionResult.configurationError (versionErrorMsg d.executable found required) ∧
      containsStr d.executable (versionErrorMsg d.executable found required) ∧
      containsStr (pyTupleStr found) (versionErrorMsg d.executable found required) ∧
      containsStr (pyTupleStr required) (versionErrorMsg d.executable found required)) ∧
    (verLt found required = false →
      d.check_version ex required = CheckVersionResult.ok) := by
  have hcv := check_version_of_found d ex required found output hspawn hrc hfound
  constructor
  · intro hlt
    refine ⟨by rw [hcv, if_pos hlt], ?_, ?_, ?_⟩
    · exact ⟨"The MiniZinc driver found at \x27".data,
        "\x27 has version ".data ++ (pyTupleStr found).data ++
          ". The minimal required version is ".data ++ (pyTupleStr required).data ++
          ".".data,
        by rw [versionErrorMsg_data]; try simp [List.append_assoc]⟩
    · exact ⟨"The MiniZinc driver found at \x27".data ++ d.executable.data ++
          "\x27 has version ".data,
        ". The minimal required version is ".data ++ (pyTupleStr required).data ++
          ".".data,
        by rw [versionErrorMsg_data]; try simp [List.append_assoc]⟩
    · exact ⟨"The MiniZinc driver found at \x27".data ++ d.executable.data ++
          "\x27 has version ".data ++ (pyTupleStr found).data ++
          ". The minimal required version is ".data,
        ".".data,
        by rw [versionErrorMsg_data]; try simp [List.append_assoc]⟩
  · intro hge
    rw [hcv, if_neg]
    simp [hge]

/-- C2 witness: found `(2, 5, 0)` against required `(2, 6, 0)` raises the
`ConfigurationError`; found `(2, 6, 1)` against required `(2, 6, 0)` returns
normally. -/
theorem c2_check_version_comparison_witness :
    CLIDriver.check_version ⟨"mz"⟩
        (fun _ _ => SpawnResult.completed ⟨0, "minizinc version 2.5.0", ""⟩) (2, 6, 0) =
      CheckVersionResult.configurationError (versionErrorMsg "mz" (2, 5, 0) (2, 6, 0)) ∧
    CLIDriver.check_version ⟨"mz"⟩
        (fun _ _ => SpawnResult.completed ⟨0, "minizinc version 2.6.1", ""⟩) (2, 6, 0) =
      CheckVersionResult.ok :=
  ⟨((c2_check_version_comparison ⟨"mz"⟩
      (fun _ _ => SpawnResult.completed ⟨0, "minizinc version 2.5.0", ""⟩)
      (2, 6, 0) (2, 5, 0) ⟨0, "minizinc version 2.5.0", ""⟩
      rfl rfl (by decide)).1 (by decide)).1,
   (c2_check_version_comparison ⟨"mz"⟩
      (fun _ _ => SpawnResult.completed ⟨0, "minizinc version 2.6.1", ""⟩)
      (2, 6, 0) (2, 6, 1) ⟨0, "minizinc version 2.6.1", ""⟩
      rfl rfl (by decide)).2 (by decide)⟩

/-! ## Completeness of the version search -/

/-- Matching a literal against an input that starts with it succeeds. -/
theorem dropLit_append (lit s : List Char) : dropLit lit (lit ++ s) = some s := by
  induction lit with
  | nil => rfl
  | cons c cs ih => simp [dropLit, ih]

/-- The maximal digit run of `ds ++ '.' :: r` is exactly `ds` when `ds` is all
digits: a dot stops the run. -/
theorem takeDigits_digits_dot (ds r : List Char) (hd : ∀ c ∈ ds, c.isDigit = true) :
    takeDigits (ds ++ '.' :: r) = (ds, '.' :: r) := by
  induction ds with
  | nil =>
    have hdot : ('.' : Char).isDigit = false := by decide
    simp [takeDigits, hdot]
  | cons c cs ih =>
    have hc : c.isDigit = true := hd c (List.mem_cons_self c cs)
    have ih2 := ih (fun x hx => hd x (List.mem_cons_of_mem c hx))
    simp [takeDigits, hc, ih2]

/-- A digit run starting with a digit is nonempty. -/
theorem takeDigits_fst_ne_nil (ds r : List Char) (hne : ds ≠ [])
    (hd : ∀ c ∈ ds, c.isDigit = true) : (takeDigits (ds ++ r)).1 ≠ [] := by
  cases ds with
  | nil => exact absurd rfl hne
  | cons c cs =>
    have hc : c.isDigit = true := hd c (List.mem_cons_self c cs)
    simp [takeDigits, hc]

/-- The anchored match succeeds on any input that spells out the full
pattern: the literal `version `, then three nonempty digit groups separated
by dots. -/
theorem matchVersionAt_isSome (d1 d2 d3 post : List Char)
    (h1 : d1 ≠ []) (h2 : d2 ≠ []) (h3 : d3 ≠ [])
    (hd1 : ∀ c ∈ d1, c.isDigit = true) (hd2 : ∀ c ∈ d2, c.isDigit = true)
    (hd3 : ∀ c ∈ d3, c.isDigit = true) :
    (matchVersionAt ("version ".data ++ (d1 ++ '.' :: (d2 ++ '.' :: (d3 ++ post))))).isSome =
      true := by
  unfold matchVersionAt
  rw [dropLit_append]
  simp only
  rw [takeDigits_digits_dot d1 (d2 ++ '.' :: (d3 ++ post)) hd1]
  simp only [if_neg h1]
  rw [takeDigits_digits_dot d2 (d3 ++ post) hd2]
  simp only [if_neg h2]
  have h3r := takeDigits_fst_ne_nil d3 post h3 hd3
  simp [h3r]

/-- If the anchored match succeeds at some suffix, `re.search` over the whole
input succeeds. -/
theorem searchVersion_append_isSome (pre s : List Char)
    (h : (matchVersionAt s).isSome = true) :
    (searchVersion (pre ++ s)).isSome = true := by
  induction pre with
  | nil =>
    cases s with
    | nil => simpa [searchVersion] using h
    | cons c rest =>
      rcases Option.isSome_iff_exists.mp (by simpa using h) with ⟨v, hv⟩
      simp [searchVersion, hv]
  | cons c cs ih =>
    show (searchVersion (c :: (cs ++ s))).isSome = true
    unfold searchVersion
    cases hm : matchVersionAt (c :: (cs ++ s)) with
    | some v => simp
    | none => simpa using ih

/-- C6: when the `--version` stdout contains no substring matching
`version (\d+)\.(\d+)\.(\d+)`, `check_version` fails with the
pattern-mismatch error (the `AttributeError` from calling `.groups()` on
`None`) — in particular it neither returns normally nor raises
`ConfigurationError`; and whenever the stdout does contain such a substring,
that failure branch is unreachable. -/
theorem c6_version_pattern_mismatch (d : CLIDriver) (ex : Exec) (required : Version)
    (output : ProcessOutput)
    (hspawn : ex [d.executable, "--allow-multiple-assignments", "--version"] none =
      SpawnResult.completed output)
    (hrc : output.returncode = 0) :
    (searchVersion output.stdout.data = none →
      d.check_version ex required = CheckVersionResult.attributeError) ∧
    (∀ pre d1 d2 d3 post : List Char,
      d1 ≠ [] → d2 ≠ [] → d3 ≠ [] →
      (∀ c ∈ d1, c.isDigit = true) → (∀ c ∈ d2, c.isDigit = true) →
      (∀ c ∈ d3, c.isDigit = true) →
      output.stdout.data =
        pre ++ ("version ".data ++ (d1 ++ '.' :: (d2 ++ '.' :: (d3 ++ post)))) →
      d.check_version ex required ≠ CheckVersionResult.attributeError) := by
  constructor
  · intro hnone
    exact check_version_of_none d ex required output hspawn hrc hnone
  · intro pre d1 d2 d3 post h1 h2 h3 hd1 hd2 hd3 hdata
    have hsome : (searchVersion output.stdout.data).isSome = true := by
      rw [hdata]
      exact searchVersion_append_isSome pre _
        (matchVersionAt_isSome d1 d2 d3 post h1 h2 h3 hd1 hd2 hd3)
    rcases Option.isSome_iff_exists.mp hsome with ⟨found, hfound⟩
    rw [check_version_of_found d ex required found output hspawn hrc hfound]
    split <;> simp

/-- C6 witness: a stdout with no version substring hits the pattern-mismatch
failure; a stdout containing `version 2.6.3` cannot hit it. -/
theorem c6_version_pattern_mismatch_witness :
    CLIDriver.check_version ⟨"mz"⟩
        (fun _ _ => SpawnResult.completed ⟨0, "no digits here", ""⟩) (2, 6, 0) =
      CheckVersionResult.attributeError ∧
    CLIDriver.check_version ⟨"mz"⟩
        (fun _ _ => SpawnResult.completed ⟨0, "minizinc version 2.6.3", ""⟩) (2, 6, 0) ≠
      CheckVersionResult.attributeError :=
  ⟨(c6_version_pattern_mismatch ⟨"mz"⟩
      (fun _ _ => SpawnResult.completed ⟨0, "no digits here", ""⟩) (2, 6, 0)
      ⟨0, "no digits here", ""⟩ rfl rfl).1 (by decide),
   (c6_version_pattern_mismatch ⟨"mz"⟩
      (fun _ _ => SpawnResult.completed ⟨0, "minizinc version 2.6.3", ""⟩) (2, 6, 0)
      ⟨0, "minizinc version 2.6.3", ""⟩ rfl rfl).2
     "minizinc ".data ['2'] ['6'] ['3'] []
     (by decide) (by decide) (by decide) (by decide) (by decide) (by decide) (by decide)⟩

/-- C5 counterexample: on the concrete outcome "subprocess completed with
exit code 0", the solver branch of `run` does not release the configuration
token immediately after the argument list is built, and does not release it
before the subprocess exits — `subprocess.run` is called, and waits for the
subprocess, inside the `with` block. -/
theorem c5_counterexample_release_timing :
    releaseImmediatelyAfterBuild (runSolverTrace (SyncOutcome.completed 0)) = false ∧
    releasedBeforeExit (runSolverTrace (SyncOutcome.completed 0)) = false := by
  decide

/-- C5 amended: whenever a solver is supplied to `run` or `create_process`,
the configuration token is acquired before the argument list is built and is
released exactly once on every exit path — including when spawning itself
fails — but only after the spawn call, not immediately after the argument
list is built: in `run` the release comes after the subprocess has completed
(or the spawn raised), while in `create_process` it comes right after the
spawn returns, before the subprocess exits. -/
theorem c5_amended_scoped_release (o : SyncOutcome) (o' : AsyncOutcome) :
    ((runSolverTrace o).take 2 = [Ev.acquireConf, Ev.buildCmd] ∧
      countEv Ev.releaseConf (runSolverTrace o) = 1 ∧
      spawnPrecedesRelease (runSolverTrace o) = true ∧
      releaseImmediatelyAfterBuild (runSolverTrace o) = false) ∧
    ((createProcessSolverTrace o').take 2 = [Ev.acquireConf, Ev.buildCmd] ∧
      countEv Ev.releaseConf (createProcessSolverTrace o') = 1 ∧
      spawnPrecedesRelease (createProcessSolverTrace o') = true ∧
      releaseImmediatelyAfterBuild (createProcessSolverTrace o') = false ∧
      releasedBeforeExit (createProcessSolverTrace o') = true) := by
  constructor
  · cases o with
    | completed returncode =>
      by_cases hrc : returncode = 0
      · subst hrc
        decide
      · have hne : (returncode ≠ 0) = True := by simp [hrc]
        simp only [runSolverTrace, hne, if_true]
        decide
    | timedOut => decide
    | spawnFailed => decide
  · cases o' <;> decide
